import Mathlib

/-!
# GeneratedAssetSymbols.h

A verification development for the resource identifier table declared in
`build/TreeShopOps.build/Debug-iphoneos/TreeShopOps.build/DerivedSources/GeneratedAssetSymbols.h`.

The header consists of five declarations of the shape

    /// <documentation comment>
    static NSString * const <symbol> AC_SWIFT_PRIVATE = @"<value>";

Each declaration is embedded as a record holding the text of its documentation
comment, its qualifiers, its symbol and its initialiser.  `AC_SWIFT_PRIVATE`
expands to an attribute or to nothing and does not touch a value, so it is not
part of the record.
-/

namespace GeneratedAssetSymbols

/-- One `static NSString * const` declaration of the header. -/
structure Decl where
  /-- Text of the `///` comment above the declaration. -/
  doc : String
  /-- The declaration carries the `static` storage class. -/
  isStatic : Bool
  /-- The declared pointer is `const`-qualified. -/
  isConst : Bool
  /-- The declared identifier. -/
  symbol : String
  /-- The `@"..."` initialiser. -/
  value : String
deriving DecidableEq, Repr

/-- Source line 9-10: `static NSString * const ACBundleID = @"com.treeshop.calculator.v2";` -/
def ACBundleID : Decl :=
  ⟨"The resource bundle ID.", true, true, "ACBundleID", "com.treeshop.calculator.v2"⟩

/-- Source line 12-13: `static NSString * const ACColorNameAccentColor = @"AccentColor";` -/
def ACColorNameAccentColor : Decl :=
  ⟨"The \"AccentColor\" asset catalog color resource.", true, true,
    "ACColorNameAccentColor", "AccentColor"⟩

/-- Source line 15-16: `static NSString * const ACColorNameTreeShopBlack = @"TreeShopBlack";` -/
def ACColorNameTreeShopBlack : Decl :=
  ⟨"The \"TreeShopBlack\" asset catalog color resource.", true, true,
    "ACColorNameTreeShopBlack", "TreeShopBlack"⟩

/-- Source line 18-19: `static NSString * const ACColorNameTreeShopBlue = @"TreeShopBlue";` -/
def ACColorNameTreeShopBlue : Decl :=
  ⟨"The \"TreeShopBlue\" asset catalog color resource.", true, true,
    "ACColorNameTreeShopBlue", "TreeShopBlue"⟩

/-- Source line 21-22: `static NSString * const ACColorNameTreeShopGreen = @"TreeShopGreen";` -/
def ACColorNameTreeShopGreen : Decl :=
  ⟨"The \"TreeShopGreen\" asset catalog color resource.", true, true,
    "ACColorNameTreeShopGreen", "TreeShopGreen"⟩

/-- The declarations of the header, in source order. -/
def table : List Decl :=
  [ACBundleID, ACColorNameAccentColor, ACColorNameTreeShopBlack,
   ACColorNameTreeShopBlue, ACColorNameTreeShopGreen]

/-! ## Reading the parts of a declaration -/

/-- Removes the leading characters `pre` from `s`; `none` when `s` does not
start with them. -/
def stripLead : List Char → List Char → Option (List Char)
  | [], s => some s
  | _ :: _, [] => none
  | p :: ps, c :: cs => if p = c then stripLead ps cs else none

/-- The stem shared by the identifiers of colour resources. -/
def colorStem : String := "ACColorName"

/-- A declaration is a colour constant by its identifier: it starts with
`ACColorName`. -/
def isColorSymbol (d : Decl) : Bool :=
  (stripLead colorStem.data d.symbol.data).isSome

/-- A declaration is a colour constant by its documentation comment: the
comment ends in `asset catalog color resource.`. -/
def isColorDoc (d : Decl) : Bool :=
  (stripLead " asset catalog color resource.".data.reverse d.doc.data.reverse).isSome

/-- A declaration is the bundle identifier by its documentation comment. -/
def isBundleDoc (d : Decl) : Bool :=
  d.doc == "The resource bundle ID."

/-- The double quote character. -/
def dquote : Char := Char.ofNat 34

/-- Everything after the first double quote. -/
def afterQuote : List Char → Option (List Char)
  | [] => none
  | c :: cs => if c = dquote then some cs else afterQuote cs

/-- Everything before the first double quote. -/
def untilQuote : List Char → Option (List Char)
  | [] => none
  | c :: cs => if c = dquote then some [] else (untilQuote cs).map (c :: ·)

/-- The asset catalog entry a documentation comment names: the text between
its first pair of double quotes. -/
def catalogEntryName (doc : String) : Option String :=
  (afterQuote doc.data).bind fun rest => (untilQuote rest).map String.mk

/-! ## Reverse-DNS shape -/

/-- Splits at every `.`; the separators are dropped and empty pieces kept. -/
def splitLabels : List Char → List (List Char)
  | [] => [[]]
  | c :: cs =>
    if c = '.' then [] :: splitLabels cs
    else match splitLabels cs with
      | [] => [[c]]
      | l :: ls => (c :: l) :: ls

/-- An ASCII letter, a digit or a hyphen. -/
def isLabelChar (c : Char) : Bool :=
  c.isAlpha || c.isDigit || c == '-'

/-! ## Resolving an identifier -/

end GeneratedAssetSymbols

namespace GeneratedAssetSymbols

/-- Membership in the table, spelled out. -/
theorem mem_table (d : Decl) :
    d ∈ table ↔ d = ACBundleID ∨ d = ACColorNameAccentColor ∨ d = ACColorNameTreeShopBlack ∨
      d = ACColorNameTreeShopBlue ∨ d = ACColorNameTreeShopGreen := by
  simp [table]

/-- C1: every constant declared in the resource identifier table has a
non-empty string value: the initialiser of each declaration has length
greater than zero. -/
theorem value_nonempty (d : Decl) (h : d ∈ table) : 0 < d.value.length := by
  rcases (mem_table d).1 h with rfl | rfl | rfl | rfl | rfl <;> decide

/-- Witness for `value_nonempty` at the declaration of `ACColorNameTreeShopGreen`. -/
theorem value_nonempty_witness :
    ACColorNameTreeShopGreen ∈ table ∧ 0 < ACColorNameTreeShopGreen.value.length :=
  ⟨by simp [table], value_nonempty ACColorNameTreeShopGreen (by simp [table])⟩

/-- C2: the resource identifier table contains exactly five named constants
with pairwise distinct identifiers: exactly one bundle identifier
(`ACBundleID`) and exactly four colour identifiers, whose values are
"AccentColor" and the three brand colours "TreeShopBlack", "TreeShopBlue",
"TreeShopGreen"; nothing else is declared. -/
theorem table_shape :
    table.length = 5 ∧
    (table.map Decl.symbol).Nodup ∧
    table.filter isBundleDoc = [ACBundleID] ∧
    (table.filter isBundleDoc).map Decl.symbol = ["ACBundleID"] ∧
    (table.filter isColorSymbol).length = 4 ∧
    (table.filter isColorSymbol).map Decl.value =
      ["AccentColor", "TreeShopBlack", "TreeShopBlue", "TreeShopGreen"] ∧
    table.filter isColorDoc = table.filter isColorSymbol ∧
    table.filter (fun d => !isBundleDoc d && !isColorSymbol d) = [] ∧
    table.filter (fun d => isBundleDoc d && isColorSymbol d) = [] := by
  refine ⟨rfl, by decide, by decide, by decide, by decide, by decide, by decide, by decide,
    by decide⟩

/-- C3: for every colour constant of the table, its string value is exactly
the asset catalog entry name that its documentation comment names (the text
the comment puts between double quotes). The colour constants, whether picked
by their comment or by their identifier, are the four declarations
`ACColorNameAccentColor`, `ACColorNameTreeShopBlack`, `ACColorNameTreeShopBlue`
and `ACColorNameTreeShopGreen`; their comments name "AccentColor",
"TreeShopBlack", "TreeShopBlue" and "TreeShopGreen", and these are their
values. -/
theorem value_matches_doc :
    (table.filter fun d => isColorDoc d || isColorSymbol d) =
      [ACColorNameAccentColor, ACColorNameTreeShopBlack, ACColorNameTreeShopBlue,
        ACColorNameTreeShopGreen] ∧
    (table.filter fun d => isColorDoc d || isColorSymbol d).map
        (fun d => (d.symbol, catalogEntryName d.doc, d.value)) =
      [("ACColorNameAccentColor", some "AccentColor", "AccentColor"),
       ("ACColorNameTreeShopBlack", some "TreeShopBlack", "TreeShopBlack"),
       ("ACColorNameTreeShopBlue", some "TreeShopBlue", "TreeShopBlue"),
       ("ACColorNameTreeShopGreen", some "TreeShopGreen", "TreeShopGreen")] ∧
    (∀ d ∈ table, isColorDoc d = true ∨ isColorSymbol d = true →
      catalogEntryName d.doc = some d.value) ∧
    (∀ d ∈ table, isColorDoc d = true ∧ isColorSymbol d = true ∨ d = ACBundleID) := by
  refine ⟨by decide, by decide, by decide, by decide⟩

/-- C4: the bundle identifier is a reverse-DNS string: its value
"com.treeshop.calculator.v2" splits on `.` into the labels `com`, `treeshop`,
`calculator`, `v2` (which joined by `.` give the value back), there are at
least two of them, every label is non-empty and made only of ASCII letters,
digits or hyphens, and the first label is the top-level-domain label `com`. -/
theorem bundleID_reverseDNS :
    ACBundleID.value = "com.treeshop.calculator.v2" ∧
    splitLabels ACBundleID.value.data =
      ["com".data, "treeshop".data, "calculator".data, "v2".data] ∧
    List.intercalate ".".data (splitLabels ACBundleID.value.data) = ACBundleID.value.data ∧
    2 ≤ (splitLabels ACBundleID.value.data).length ∧
    (∀ l ∈ splitLabels ACBundleID.value.data, l ≠ [] ∧ ∀ c ∈ l, isLabelChar c = true) ∧
    (splitLabels ACBundleID.value.data).head? = some "com".data := by
  refine ⟨rfl, by decide, by decide, by decide, by decide, by decide⟩

/-- C7: the mapping from identifiers to values is injective: the five
values "com.treeshop.calculator.v2", "AccentColor", "TreeShopBlack",
"TreeShopBlue", "TreeShopGreen" are pairwise distinct, two declarations of
the table with the same value are the same declaration, and no colour value
equals the bundle identifier. -/
theorem values_injective :
    table.map Decl.value =
      ["com.treeshop.calculator.v2", "AccentColor", "TreeShopBlack", "TreeShopBlue",
        "TreeShopGreen"] ∧
    (table.map Decl.value).Nodup ∧
    (∀ d₁ ∈ table, ∀ d₂ ∈ table, d₁.value = d₂.value → d₁.symbol = d₂.symbol) ∧
    (∀ d ∈ table, isColorSymbol d = true → d.value ≠ ACBundleID.value) := by
  refine ⟨rfl, by decide, by decide, by decide⟩

/-- C8: for every colour constant of the table, the identifier is
`ACColorName` followed by exactly the value; so stripping `ACColorName` from
the identifier gives the value, and putting it in front of the value gives the
identifier. The colour constants, whether picked by their comment or by their
identifier, are the four entries with the values "AccentColor",
"TreeShopBlack", "TreeShopBlue" and "TreeShopGreen", and every other entry of
the table is the bundle identifier. -/
theorem symbol_eq_stem_append_value :
    (table.filter fun d => isColorDoc d || isColorSymbol d).map
        (fun d => (d.symbol, "ACColorName" ++ d.value,
          (stripLead "ACColorName".data d.symbol.data).map String.mk, d.value)) =
      [("ACColorNameAccentColor", "ACColorNameAccentColor", some "AccentColor", "AccentColor"),
       ("ACColorNameTreeShopBlack", "ACColorNameTreeShopBlack", some "TreeShopBlack",
          "TreeShopBlack"),
       ("ACColorNameTreeShopBlue", "ACColorNameTreeShopBlue", some "TreeShopBlue",
          "TreeShopBlue"),
       ("ACColorNameTreeShopGreen", "ACColorNameTreeShopGreen", some "TreeShopGreen",
          "TreeShopGreen")] ∧
    (∀ d ∈ table, isColorDoc d = true ∨ isColorSymbol d = true →
      d.symbol = "ACColorName" ++ d.value ∧
        stripLead "ACColorName".data d.symbol.data = some d.value.data) ∧
    (∀ d ∈ table, isColorDoc d = true ∧ isColorSymbol d = true ∨ d = ACBundleID) := by
  refine ⟨by decide, by decide, by decide⟩

end GeneratedAssetSymbols
